import Mathlib

/-!
# Rollout orchestration: `ServiceRollout` and the composite error `ServiceErr`

A shallow embedding of `rollout.go` (package `rollout`) and of the parts of
`rollout_test.go` that the properties below use.

## Error values

Go's `error` is an interface, and a `Service` may return a value of any type
that implements it. The embedding represents

* `nil`, the nil interface;
* `*errors.errorString`, made by `errors.New` (a pointer: two calls give two
  distinct values even for the same text);
* `*fmt.wrapError`, made by `fmt.Errorf` with one `%w` operand (a pointer with
  an `Unwrap` method and no `Is` method);
* `rollout.ServiceErr`, the struct of this package, which has an `Is` method
  and no `Unwrap` method; its type is comparable, but comparing two of its
  values compares their fields and can panic;
* a value of an error type declared elsewhere (`foreign`): its dynamic type
  may or may not be comparable, it may have an `Is` method of its own (read
  from a table of methods, an arbitrary function of receiver and target) and
  an `Unwrap` method.

The comparison `==` of two interface values and `errors.Is` return an
`Option`: `none` is a run-time panic ("comparing uncomparable type").

Not represented: error types with `Unwrap() []error`, foreign comparable
types whose own `==` can panic (structs that hold interfaces) or is not
reflexive (a floating-point NaN), and methods of foreign types that panic or
do not return.

## Services

A `Service` is an interface with three methods that may have effects. The
embedding passes the service's state explicitly: each method maps the state
before the call to the returned error and the state after the call. The
methods are assumed to return.
-/

/-- Error values (Go interface `error`). `addr` is the address of a pointer
value: distinct allocations carry distinct addresses. A `foreign` value has
the dynamic type numbered `ty`, which is comparable or not, the payload `val`,
the text its `Error` method returns and the error its `Unwrap` method returns
(nil when it has none). -/
inductive GoError where
  | nil : GoError
  | errorString (addr : Nat) (s : String) : GoError
  | wrapError (addr : Nat) (msg : String) (err : GoError) : GoError
  | serviceErr (RollbackSuccessful : Bool)
      (RolloutErr CheckHealthErr RollbackErr : GoError) : GoError
  | foreign (ty : Nat) (comparable : Bool) (val : Nat) (text : String)
      (err : GoError) : GoError
  deriving DecidableEq

/-- The struct `ServiceErr` of rollout.go, fields in declaration order. The
defaults are Go's zero values. -/
structure ServiceErr where
  RollbackSuccessful : Bool := false
  RolloutErr : GoError := GoError.nil
  CheckHealthErr : GoError := GoError.nil
  RollbackErr : GoError := GoError.nil
  deriving DecidableEq

/-- A `ServiceErr` struct value stored in an `error` interface. -/
def ServiceErr.toError (se : ServiceErr) : GoError :=
  GoError.serviceErr se.RollbackSuccessful se.RolloutErr se.CheckHealthErr se.RollbackErr

/-- The `Is` methods of the error types declared outside this package:
`Is recv target` is what the method of the foreign value `recv` returns for
`target`, and false when the type of `recv` has no `Is` method. -/
structure ErrorMethods where
  Is : GoError → GoError → Bool

/-- Number of non-nil error values inside an error; used only as the measure
that shows `Error` and `errors.Is` terminate. -/
def GoError.size : GoError → Nat
  | .nil => 0
  | .errorString _ _ => 1
  | .wrapError _ _ err => err.size + 1
  | .serviceErr _ r c k => r.size + c.size + k.size + 1
  | .foreign _ _ _ _ err => err.size + 1

/-- Measure of a `ServiceErr` struct, equal to the size of its boxed form. -/
def ServiceErr.size (se : ServiceErr) : Nat :=
  se.RolloutErr.size + se.CheckHealthErr.size + se.RollbackErr.size + 1

mutual
/-- The method `Error()` of an error value. Calling it on the nil interface
panics in Go; the package never does so, and the embedding returns the empty
text there. -/
def GoError.Error : GoError → String
  | .nil => ""
  | .errorString _ s => s
  | .wrapError _ msg _ => msg
  | .serviceErr b r c k => ServiceErr.Error ⟨b, r, c, k⟩
  | .foreign _ _ _ text _ => text
termination_by e => 2 * e.size + 1
decreasing_by
  all_goals simp_wf
  all_goals (try simp only [GoError.size, ServiceErr.size])
  all_goals omega

/-- The method `func (se ServiceErr) Error() string` of rollout.go. -/
def ServiceErr.Error (se : ServiceErr) : String :=
  let errorMsg := ""
  let errorMsg :=
    if se.RolloutErr ≠ GoError.nil then "failed rollout: " ++ se.RolloutErr.Error
    else errorMsg
  let errorMsg :=
    if se.CheckHealthErr ≠ GoError.nil then
      errorMsg ++ ("failed health check: " ++ se.CheckHealthErr.Error)
    else errorMsg
  let errorMsg :=
    if se.RollbackErr ≠ GoError.nil then
      errorMsg ++ (": failed rollback: " ++ se.RollbackErr.Error)
    else errorMsg
  if se.RollbackSuccessful then "rollback successful: " ++ errorMsg else errorMsg
termination_by 2 * se.size
decreasing_by
  all_goals simp_wf
  all_goals (try simp only [GoError.size, ServiceErr.size])
  all_goals omega
end

/-- Whether the dynamic type of a non-nil error is comparable
(`reflectlite.TypeOf(target).Comparable()` in `errors.Is`): pointers are, the
struct type `ServiceErr` is, a foreign type says so itself. -/
def GoError.comparableType : GoError → Bool
  | .foreign _ comparable _ _ _ => comparable
  | _ => true

/-- The comparison `x == y` of two interface values: they are equal when both
are nil or when they have the same dynamic type and equal values. Pointers
are compared by address. Two `ServiceErr` values are compared field by field
in declaration order, stopping at the first difference. Two values of the
same non-comparable type cannot be compared: the result `none` is the
run-time panic. -/
def GoError.equal (x y : GoError) : Option Bool :=
  match x with
  | .serviceErr b r c k =>
    match y with
    | .serviceErr b2 r2 c2 k2 =>
      if b ≠ b2 then some false
      else
        match GoError.equal r r2 with
        | none => none
        | some false => some false
        | some true =>
          match GoError.equal c c2 with
          | none => none
          | some false => some false
          | some true => GoError.equal k k2
    | _ => some false
  | .foreign ty comparable val text err =>
    match y with
    | .foreign ty2 comparable2 _ _ _ =>
      if ty = ty2 ∧ comparable = comparable2 then
        if comparable then some (decide (GoError.foreign ty comparable val text err = y))
        else none
      else some false
    | _ => some false
  | .wrapError addr msg err => some (decide (GoError.wrapError addr msg err = y))
  | .errorString addr s => some (decide (GoError.errorString addr s = y))
  | .nil => some (decide (GoError.nil = y))

/-- The statement `if c { return true }` followed by the rest of a function
body: a panic while `c` is computed ends the run, true is returned at once,
and false goes on with `rest`. -/
def returnTrueOr (c rest : Option Bool) : Option Bool :=
  match c with
  | none => none
  | some true => some true
  | some false => rest

mutual
/-- The standard library function `errors.Is(err, target)`: when either
argument is nil the answer is `err == target`, otherwise the loop `is` runs.
(Releases before Go 1.20 test only `target == nil` first and run the loop on a
nil `err`, which answers false: the same results.) -/
def errors.Is (m : ErrorMethods) (err target : GoError) : Option Bool :=
  if err = GoError.nil ∨ target = GoError.nil then some (decide (err = target))
  else errors.is m err target
termination_by 3 * (err.size + target.size) + 2
decreasing_by
  all_goals simp_wf

/-- The loop of `errors.Is`: when the type of `target` is comparable, compare
`err == target`; then ask the `Is` method of `err` when it has one; then
follow `Unwrap` when `err` has one, and answer false when it has none or it
returns nil. -/
def errors.is (m : ErrorMethods) (err target : GoError) : Option Bool :=
  returnTrueOr (if target.comparableType then err.equal target else some false)
    (match err with
    | .serviceErr b r c k => returnTrueOr (ServiceErr.Is m ⟨b, r, c, k⟩ target) (some false)
    | .foreign ty comparable val text inner =>
        returnTrueOr (some (m.Is (.foreign ty comparable val text inner) target))
          (if inner = GoError.nil then some false else errors.is m inner target)
    | .wrapError _ _ inner =>
        if inner = GoError.nil then some false else errors.is m inner target
    | .errorString _ _ => some false
    | .nil => some false)
termination_by 3 * (err.size + target.size) + 1
decreasing_by
  all_goals simp_wf
  all_goals (try simp only [GoError.size, ServiceErr.size])
  all_goals omega

/-- The method `func (se ServiceErr) Is(target error) bool` of rollout.go: the
three calls of `errors.Is` run in order, each only if the one before returned
false. -/
def ServiceErr.Is (m : ErrorMethods) (se : ServiceErr) (target : GoError) : Option Bool :=
  returnTrueOr (errors.Is m target se.RolloutErr)
    (returnTrueOr (errors.Is m target se.CheckHealthErr)
      (returnTrueOr (errors.Is m target se.RollbackErr)
        (some false)))
termination_by 3 * (se.size + target.size)
decreasing_by
  all_goals simp_wf
  all_goals (try simp only [GoError.size, ServiceErr.size])
  all_goals omega
end

/-- The interface `Service` of rollout.go over an explicit state: every method
returns its error and the state after the call. -/
structure Service (σ : Type) where
  Rollout : σ → GoError × σ
  CheckHealth : σ → GoError × σ
  Rollback : σ → GoError × σ

/-- The function `func ServiceRollout(s Service) error` of rollout.go; the
second component is the service state when the function returns. -/
def ServiceRollout {σ : Type} (s : Service σ) (st : σ) : GoError × σ :=
  let r := s.Rollout st
  if r.1 ≠ GoError.nil then
    let b := s.Rollback r.2
    if b.1 ≠ GoError.nil then
      (ServiceErr.toError { RolloutErr := r.1, RollbackErr := b.1 }, b.2)
    else
      (ServiceErr.toError { RollbackSuccessful := true, RolloutErr := r.1 }, b.2)
  else
    let h := s.CheckHealth r.2
    if h.1 ≠ GoError.nil then
      let b := s.Rollback h.2
      if b.1 ≠ GoError.nil then
        (ServiceErr.toError { CheckHealthErr := h.1, RollbackErr := b.1 }, b.2)
      else
        (ServiceErr.toError { RollbackSuccessful := true, CheckHealthErr := h.1 }, b.2)
    else
      (GoError.nil, h.2)

/-- The three operations of a service, as entries of a call log. -/
inductive Op where
  | Rollout : Op
  | CheckHealth : Op
  | Rollback : Op
  deriving DecidableEq

/-- A spy around a service: it behaves as the service does and appends every
call it receives to a log kept next to the service state. -/
def Service.spy {σ : Type} (s : Service σ) : Service (σ × List Op) where
  Rollout := fun p => ((s.Rollout p.1).1, ((s.Rollout p.1).2, p.2 ++ [Op.Rollout]))
  CheckHealth := fun p =>
    ((s.CheckHealth p.1).1, ((s.CheckHealth p.1).2, p.2 ++ [Op.CheckHealth]))
  Rollback := fun p => ((s.Rollback p.1).1, ((s.Rollback p.1).2, p.2 ++ [Op.Rollback]))

/-- The calls one run of `ServiceRollout` makes on the service, in order. -/
def callLog {σ : Type} (s : Service σ) (st : σ) : List Op :=
  (ServiceRollout s.spy (st, [])).2.2

/-- The state in which `ServiceRollout` calls `Rollback` when it does: after
`Rollout` if that failed, after `CheckHealth` otherwise. -/
def rollbackState {σ : Type} (s : Service σ) (st : σ) : σ :=
  if (s.Rollout st).1 ≠ GoError.nil then (s.Rollout st).2
  else (s.CheckHealth (s.Rollout st).2).2

/-- The struct `TestService` of rollout_test.go. -/
structure TestService where
  ShouldFailRollout : Bool := false
  ShouldFailCheckHealth : Bool := false
  ShouldFailRollback : Bool := false

/-- The variable `ErrRollout` of rollout_test.go. -/
def ErrRollout : GoError := GoError.errorString 1 "rollout failed"

/-- The variable `ErrCheckHealth` of rollout_test.go. -/
def ErrCheckHealth : GoError := GoError.errorString 2 "check health failed"

/-- The variable `ErrRollback` of rollout_test.go. -/
def ErrRollback : GoError := GoError.errorString 3 "rollback failed"

/-- The method `func (t TestService) Rollout() error` of rollout_test.go. -/
def TestService.Rollout (t : TestService) : GoError :=
  if t.ShouldFailRollout then ErrRollout else GoError.nil

/-- The method `func (t TestService) CheckHealth() error` of rollout_test.go. -/
def TestService.CheckHealth (t : TestService) : GoError :=
  if t.ShouldFailCheckHealth then ErrCheckHealth else GoError.nil

/-- The method `func (t TestService) Rollback() error` of rollout_test.go. -/
def TestService.Rollback (t : TestService) : GoError :=
  if t.ShouldFailRollback then ErrRollback else GoError.nil

/-- A `TestService` value used as a `Service`; it has no state. -/
def TestService.toService (t : TestService) : Service Unit where
  Rollout := fun st => (t.Rollout, st)
  CheckHealth := fun st => (t.CheckHealth, st)
  Rollback := fun st => (t.Rollback, st)

theorem errors_Is_nil_right (m : ErrorMethods) (e : GoError) :
    errors.Is m e GoError.nil = some (decide (e = GoError.nil)) := by
  rw [errors.Is]; simp

theorem errors_Is_nil_left (m : ErrorMethods) (t : GoError) :
    errors.Is m GoError.nil t = some (decide (GoError.nil = t)) := by
  rw [errors.Is]; simp

theorem toError_ne_nil (se : ServiceErr) : se.toError ≠ GoError.nil := by
  simp [ServiceErr.toError]

theorem ServiceErr_Is_false (m : ErrorMethods) (se : ServiceErr) (x : GoError)
    (h1 : errors.Is m x se.RolloutErr = some false)
    (h2 : errors.Is m x se.CheckHealthErr = some false)
    (h3 : errors.Is m x se.RollbackErr = some false) :
    se.Is m x = some false := by
  rw [ServiceErr.Is, h1, h2, h3]; rfl

theorem ServiceRollout_spy {σ : Type} (s : Service σ) (st : σ) (log : List Op) :
    (ServiceRollout s.spy (st, log)).1 = (ServiceRollout s st).1 ∧
    (ServiceRollout s.spy (st, log)).2.1 = (ServiceRollout s st).2 := by
  simp only [ServiceRollout, Service.spy]
  split_ifs <;> simp

/-! ## The orchestrator -/

/-- C1: when `Rollout` and `CheckHealth` both succeed, `ServiceRollout` returns
nil and the run calls `Rollout` then `CheckHealth` and never `Rollback`,
whatever `Rollback` would have returned. -/
theorem ServiceRollout_success {σ : Type} (s : Service σ) (st st1 st2 : σ)
    (hR : s.Rollout st = (GoError.nil, st1))
    (hC : s.CheckHealth st1 = (GoError.nil, st2)) :
    ServiceRollout s st = (GoError.nil, st2) ∧
    callLog s st = [Op.Rollout, Op.CheckHealth] ∧
    Op.Rollback ∉ callLog s st := by
  simp [callLog, ServiceRollout, Service.spy, hR, hC]

theorem ServiceRollout_success_witness :
    ServiceRollout (TestService.toService { ShouldFailRollback := true }) () =
        (GoError.nil, ()) ∧
    callLog (TestService.toService { ShouldFailRollback := true }) () =
        [Op.Rollout, Op.CheckHealth] ∧
    Op.Rollback ∉ callLog (TestService.toService { ShouldFailRollback := true }) () :=
  ServiceRollout_success (TestService.toService { ShouldFailRollback := true }) () () ()
    rfl rfl

/-- C2: when `Rollout` fails with `e` and `Rollback` then succeeds, the result
is the composite with `RolloutErr = e`, `RollbackSuccessful = true` and the
other two fields nil; the run calls `Rollout` then `Rollback` and never
`CheckHealth`, whatever `CheckHealth` would have returned. -/
theorem ServiceRollout_rollout_failed_rolled_back {σ : Type} (s : Service σ)
    (st st1 st2 : σ) (e : GoError)
    (hR : s.Rollout st = (e, st1)) (he : e ≠ GoError.nil)
    (hB : s.Rollback st1 = (GoError.nil, st2)) :
    ServiceRollout s st =
      (ServiceErr.toError (ServiceErr.mk true e GoError.nil GoError.nil), st2) ∧
    callLog s st = [Op.Rollout, Op.Rollback] ∧
    Op.CheckHealth ∉ callLog s st := by
  simp [callLog, ServiceRollout, Service.spy, hR, hB, he]

theorem ServiceRollout_rollout_failed_rolled_back_witness :
    ServiceRollout
        (TestService.toService { ShouldFailRollout := true, ShouldFailCheckHealth := true })
        () =
      (ServiceErr.toError (ServiceErr.mk true ErrRollout GoError.nil GoError.nil), ()) ∧
    callLog
        (TestService.toService { ShouldFailRollout := true, ShouldFailCheckHealth := true })
        () = [Op.Rollout, Op.Rollback] ∧
    Op.CheckHealth ∉ callLog
        (TestService.toService { ShouldFailRollout := true, ShouldFailCheckHealth := true })
        () :=
  ServiceRollout_rollout_failed_rolled_back
    (TestService.toService { ShouldFailRollout := true, ShouldFailCheckHealth := true })
    () () () ErrRollout rfl (by decide) rfl

/-- C3: when `Rollout` succeeds, `CheckHealth` fails with `e` and `Rollback`
then succeeds, the result is the composite with `CheckHealthErr = e`,
`RollbackSuccessful = true`, and `RolloutErr` and `RollbackErr` nil. -/
theorem ServiceRollout_unhealthy_rolled_back {σ : Type} (s : Service σ)
    (st st1 st2 st3 : σ) (e : GoError)
    (hR : s.Rollout st = (GoError.nil, st1))
    (hC : s.CheckHealth st1 = (e, st2)) (he : e ≠ GoError.nil)
    (hB : s.Rollback st2 = (GoError.nil, st3)) :
    ServiceRollout s st =
      (ServiceErr.toError (ServiceErr.mk true GoError.nil e GoError.nil), st3) := by
  simp [ServiceRollout, hR, hC, hB, he]

theorem ServiceRollout_unhealthy_rolled_back_witness :
    ServiceRollout (TestService.toService { ShouldFailCheckHealth := true }) () =
      (ServiceErr.toError (ServiceErr.mk true GoError.nil ErrCheckHealth GoError.nil), ()) :=
  ServiceRollout_unhealthy_rolled_back
    (TestService.toService { ShouldFailCheckHealth := true })
    () () () () ErrCheckHealth rfl rfl (by decide) rfl


/-! ## Both `Rollout` and `Rollback` fail -/

theorem callLog_eq {σ : Type} (s : Service σ) (st : σ) :
    callLog s st =
      if (s.Rollout st).1 ≠ GoError.nil then [Op.Rollout, Op.Rollback]
      else if (s.CheckHealth (s.Rollout st).2).1 ≠ GoError.nil then
        [Op.Rollout, Op.CheckHealth, Op.Rollback]
      else [Op.Rollout, Op.CheckHealth] := by
  simp only [callLog, ServiceRollout, Service.spy]
  split_ifs <;> simp

/-- C7: the calls of one run are `[Rollout, CheckHealth]` when both succeed,
`[Rollout, Rollback]` when `Rollout` fails, and
`[Rollout, CheckHealth, Rollback]` when `Rollout` succeeds and `CheckHealth`
fails; so every operation is called at most once, `CheckHealth` is called
only if `Rollout` succeeded, and `Rollback` is called exactly once if and only
if `Rollout` or `CheckHealth` failed (and not at all otherwise). -/
theorem callLog_shape {σ : Type} (s : Service σ) (st : σ) :
    (callLog s st =
      if (s.Rollout st).1 ≠ GoError.nil then [Op.Rollout, Op.Rollback]
      else if (s.CheckHealth (s.Rollout st).2).1 ≠ GoError.nil then
        [Op.Rollout, Op.CheckHealth, Op.Rollback]
      else [Op.Rollout, Op.CheckHealth]) ∧
    (callLog s st = [Op.Rollout, Op.CheckHealth] ∨
      callLog s st = [Op.Rollout, Op.Rollback] ∨
      callLog s st = [Op.Rollout, Op.CheckHealth, Op.Rollback]) ∧
    (∀ op : Op, (callLog s st).count op ≤ 1) ∧
    (Op.CheckHealth ∈ callLog s st ↔ (s.Rollout st).1 = GoError.nil) ∧
    ((callLog s st).count Op.Rollback = 1 ↔
      ((s.Rollout st).1 ≠ GoError.nil ∨
        (s.CheckHealth (s.Rollout st).2).1 ≠ GoError.nil)) ∧
    (Op.Rollback ∉ callLog s st ↔
      ((s.Rollout st).1 = GoError.nil ∧
        (s.CheckHealth (s.Rollout st).2).1 = GoError.nil)) ∧
    (ServiceRollout s.spy (st, [])).1 = (ServiceRollout s st).1 := by
  refine ⟨callLog_eq s st, ?_, ?_, ?_, ?_, ?_, (ServiceRollout_spy s st []).1⟩
  · rw [callLog_eq]; split_ifs <;> simp
  · intro op
    rw [callLog_eq]
    split_ifs <;> cases op <;> decide
  · rw [callLog_eq]; split_ifs with hr hc <;> simp_all
  · rw [callLog_eq]; split_ifs with hr hc <;> simp_all
  · rw [callLog_eq]; split_ifs with hr hc <;> simp_all

/-! ## Invariants of a returned composite -/

theorem toError_injective (a b : ServiceErr) (h : a.toError = b.toError) : a = b := by
  cases a; cases b
  simp only [ServiceErr.toError, GoError.serviceErr.injEq] at h
  simp [h]

/-- Every non-nil result of `ServiceRollout` is one of the four composites the
function builds, with the `Rollback` error taken in `rollbackState`. -/
theorem ServiceRollout_cases {σ : Type} (s : Service σ) (st : σ) (se : ServiceErr)
    (h : (ServiceRollout s st).1 = se.toError) :
    ((s.Rollout st).1 ≠ GoError.nil ∨ (s.CheckHealth (s.Rollout st).2).1 ≠ GoError.nil) ∧
    se.RolloutErr = (s.Rollout st).1 ∧
    se.CheckHealthErr =
      (if (s.Rollout st).1 ≠ GoError.nil then GoError.nil
        else (s.CheckHealth (s.Rollout st).2).1) ∧
    se.RollbackErr = (s.Rollback (rollbackState s st)).1 ∧
    se.RollbackSuccessful = decide ((s.Rollback (rollbackState s st)).1 = GoError.nil) ∧
    (ServiceRollout s st).2 = (s.Rollback (rollbackState s st)).2 := by
  simp only [ServiceRollout, rollbackState] at h ⊢
  split_ifs at h ⊢ with hr hb hc hb2
  · have := toError_injective _ _ h; subst this; simp_all
  · have := toError_injective _ _ h; subst this; simp_all
  · have := toError_injective _ _ h; subst this; simp_all
  · have := toError_injective _ _ h; subst this; simp_all
  · exact absurd h.symm (toError_ne_nil se)

/-- C8: a composite returned by `ServiceRollout` never has both `RolloutErr`
and `CheckHealthErr` set. -/
theorem ServiceRollout_one_primary_failure {σ : Type} (s : Service σ) (st : σ)
    (se : ServiceErr) (h : (ServiceRollout s st).1 = se.toError) :
    se.RolloutErr = GoError.nil ∨ se.CheckHealthErr = GoError.nil := by
  obtain ⟨_, hro, hch, _⟩ := ServiceRollout_cases s st se h
  by_cases hr : (s.Rollout st).1 = GoError.nil
  · exact Or.inl (hro.trans hr)
  · exact Or.inr (by rw [hch]; simp [hr])

theorem ServiceRollout_one_primary_failure_witness :
    (ServiceRollout (TestService.toService (TestService.mk true true true)) ()).1 =
      (ServiceErr.mk false ErrRollout GoError.nil ErrRollback).toError ∧
    ((ServiceErr.mk false ErrRollout GoError.nil ErrRollback).RolloutErr = GoError.nil ∨
      (ServiceErr.mk false ErrRollout GoError.nil ErrRollback).CheckHealthErr
        = GoError.nil) :=
  ⟨rfl, ServiceRollout_one_primary_failure
    (TestService.toService (TestService.mk true true true)) ()
    (ServiceErr.mk false ErrRollout GoError.nil ErrRollback) rfl⟩

/-- C9: in a composite returned by `ServiceRollout`, `RollbackErr` is the
error the `Rollback` call of the run returned and `RollbackSuccessful` tells
whether that call returned nil; the run made that call exactly once. So
`RollbackErr` is set exactly when `RollbackSuccessful` is false, exactly when
the call failed; `RollbackSuccessful` is true exactly when the call returned
nil; the two are never both set and never both absent. -/
theorem ServiceRollout_rollback_outcome {σ : Type} (s : Service σ) (st : σ)
    (se : ServiceErr) (h : (ServiceRollout s st).1 = se.toError) :
    (callLog s st).count Op.Rollback = 1 ∧
    se.RollbackErr = (s.Rollback (rollbackState s st)).1 ∧
    (se.RollbackErr ≠ GoError.nil ↔ se.RollbackSuccessful = false) ∧
    (se.RollbackErr ≠ GoError.nil ↔ (s.Rollback (rollbackState s st)).1 ≠ GoError.nil) ∧
    (se.RollbackSuccessful = true ↔ (s.Rollback (rollbackState s st)).1 = GoError.nil) ∧
    ¬ (se.RollbackErr ≠ GoError.nil ∧ se.RollbackSuccessful = true) ∧
    ¬ (se.RollbackErr = GoError.nil ∧ se.RollbackSuccessful = false) := by
  obtain ⟨hfail, _, _, hrb, hok, _⟩ := ServiceRollout_cases s st se h
  have hcount : (callLog s st).count Op.Rollback = 1 := by
    rw [callLog_eq]
    split_ifs with hr hc
    · decide
    · decide
    · exact absurd hfail (by simp [not_not.mp hr, not_not.mp hc])
  refine ⟨hcount, hrb, ?_, ?_, ?_, ?_, ?_⟩
  · rw [hok, hrb]; simp
  · rw [hrb]
  · rw [hok]; simp
  · rw [hok, hrb]; simp
  · rw [hok, hrb]; simp

theorem ServiceRollout_rollback_outcome_witness :
    (ServiceRollout (TestService.toService (TestService.mk false true false)) ()).1 =
      (ServiceErr.mk true GoError.nil ErrCheckHealth GoError.nil).toError ∧
    (callLog (TestService.toService (TestService.mk false true false)) ()).count
        Op.Rollback = 1 ∧
    ((ServiceErr.mk true GoError.nil ErrCheckHealth GoError.nil).RollbackErr ≠ GoError.nil ↔
      (ServiceErr.mk true GoError.nil ErrCheckHealth GoError.nil).RollbackSuccessful
        = false) :=
  have h := ServiceRollout_rollback_outcome
    (TestService.toService (TestService.mk false true false)) ()
    (ServiceErr.mk true GoError.nil ErrCheckHealth GoError.nil) rfl
  ⟨rfl, h.1, h.2.2.1⟩

/-- C10: `errors.Is` of the empty composite against a nil candidate is false,
as it is for every composite; and the `Is` method of the empty composite
rejects every non-nil candidate, so its absent fields match nothing. -/
theorem errors_Is_empty_composite_nil (m : ErrorMethods) :
    errors.Is m
      (ServiceErr.toError (ServiceErr.mk false GoError.nil GoError.nil GoError.nil))
      GoError.nil = some false ∧
    (∀ se : ServiceErr, errors.Is m se.toError GoError.nil = some false) ∧
    (∀ x : GoError, x ≠ GoError.nil →
      ServiceErr.Is m (ServiceErr.mk false GoError.nil GoError.nil GoError.nil) x
        = some false) := by
  have hall : ∀ se : ServiceErr, errors.Is m se.toError GoError.nil = some false := by
    intro se
    rw [errors_Is_nil_right]
    simp [toError_ne_nil]
  refine ⟨hall _, hall, ?_⟩
  intro x hx
  apply ServiceErr_Is_false <;> (rw [errors_Is_nil_right]; simp [hx])

/-! ## Cause matching of an arbitrary composite -/

theorem Error_toError (se : ServiceErr) : se.toError.Error = se.Error := by
  cases se
  simp [ServiceErr.toError, GoError.Error]

/-- The text of a composite as one concatenation of four optional segments. -/
theorem ServiceErr_Error_eq (se : ServiceErr) :
    se.Error =
      (if se.RollbackSuccessful then "rollback successful: " else "") ++
      ((if se.RolloutErr ≠ GoError.nil then "failed rollout: " ++ se.RolloutErr.Error
          else "") ++
        ((if se.CheckHealthErr ≠ GoError.nil then
            "failed health check: " ++ se.CheckHealthErr.Error else "") ++
          (if se.RollbackErr ≠ GoError.nil then
            ": failed rollback: " ++ se.RollbackErr.Error else ""))) := by
  rw [ServiceErr.Error]
  by_cases hb : se.RollbackSuccessful = true <;>
    by_cases hr : se.RolloutErr = GoError.nil <;>
    by_cases hc : se.CheckHealthErr = GoError.nil <;>
    by_cases hk : se.RollbackErr = GoError.nil <;>
    simp [hb, hr, hc, hk, String.append_assoc]

theorem String_append_ne_empty (p t : String) (hp : p ≠ "") : p ++ t ≠ "" := by
  intro h
  have hd := congrArg String.data h
  simp only [String.data_append] at hd
  have : p.data = [] := (List.append_eq_nil.mp hd).1
  exact hp (String.ext_iff.mpr this)

/-- C13: the empty composite renders to the empty string. -/
theorem ServiceErr_Error_empty :
    ServiceErr.Error (ServiceErr.mk false GoError.nil GoError.nil GoError.nil) = "" ∧
    (ServiceErr.toError
      (ServiceErr.mk false GoError.nil GoError.nil GoError.nil)).Error = "" := by
  have h : ServiceErr.Error (ServiceErr.mk false GoError.nil GoError.nil GoError.nil)
      = "" := by
    rw [ServiceErr.Error]; simp
  exact ⟨h, by rw [Error_toError, h]⟩

/-- C14: a composite whose only set field is `RolloutErr`, of text `t`, renders
as "failed rollout: " + t, and one whose only set field is `CheckHealthErr`,
of text `t`, renders as "failed health check: " + t. -/
theorem ServiceErr_Error_single (e : GoError) (t : String)
    (he : e ≠ GoError.nil) (ht : e.Error = t) :
    ServiceErr.Error (ServiceErr.mk false e GoError.nil GoError.nil) =
      "failed rollout: " ++ t ∧
    ServiceErr.Error (ServiceErr.mk false GoError.nil e GoError.nil) =
      "failed health check: " ++ t := by
  constructor
  · rw [ServiceErr.Error]; simp [he, ht]
  · rw [ServiceErr.Error]; simp [he, ht]

theorem ServiceErr_Error_single_witness :
    ServiceErr.Error
        (ServiceErr.mk false (GoError.errorString 30 "rollout failed")
          GoError.nil GoError.nil) = "failed rollout: rollout failed" ∧
    ServiceErr.Error
        (ServiceErr.mk false GoError.nil (GoError.errorString 30 "rollout failed")
          GoError.nil) = "failed health check: rollout failed" :=
  ServiceErr_Error_single (GoError.errorString 30 "rollout failed") "rollout failed"
    (by decide) (by simp [GoError.Error])

/-- C15: for every combination of the three failure fields, the rendering with
`RollbackSuccessful = true` is "rollback successful: " followed by the
rendering of the same fields with `RollbackSuccessful = false`. -/
theorem ServiceErr_Error_rollback_successful (r c k : GoError) :
    ServiceErr.Error (ServiceErr.mk true r c k) =
      "rollback successful: " ++ ServiceErr.Error (ServiceErr.mk false r c k) := by
  rw [ServiceErr.Error, ServiceErr.Error]
  simp

/-- C16: for a composite with `RollbackSuccessful = false` and no
`RollbackErr`, setting `RollbackErr` to an error of text `b` appends
": failed rollback: " + b to the rendering. -/
theorem ServiceErr_Error_rollback_failed (r c e : GoError) (b : String)
    (he : e ≠ GoError.nil) (hb : e.Error = b) :
    ServiceErr.Error (ServiceErr.mk false r c e) =
      ServiceErr.Error (ServiceErr.mk false r c GoError.nil) ++ ": failed rollback: " ++ b := by
  rw [ServiceErr.Error, ServiceErr.Error]
  simp [he, hb, String.append_assoc]

theorem ServiceErr_Error_rollback_failed_witness :
    ServiceErr.Error
        (ServiceErr.mk false (GoError.errorString 31 "rollout failed") GoError.nil
          (GoError.errorString 32 "rollback failed")) =
      "failed rollout: rollout failed: failed rollback: rollback failed" :=
  (ServiceErr_Error_rollback_failed (GoError.errorString 31 "rollout failed") GoError.nil
    (GoError.errorString 32 "rollback failed") "rollback failed"
    (by decide) (by simp [GoError.Error])).trans
    (by rw [ServiceErr.Error]; simp [GoError.Error])

/-- C17: for every composite, `Error()` is the concatenation, in this order,
of "rollback successful: " when `RollbackSuccessful` holds, "failed rollout: "
and the text of `RolloutErr` when that is set, "failed health check: " and the
text of `CheckHealthErr` when that is set, and ": failed rollback: " and the
text of `RollbackErr` when that is set. When `RolloutErr` and `CheckHealthErr`
are both set, the health-check segment follows the rollout text directly. -/
theorem ServiceErr_Error_concat (se : ServiceErr) :
    se.Error =
      (if se.RollbackSuccessful then "rollback successful: " else "") ++
      (if se.RolloutErr ≠ GoError.nil then "failed rollout: " ++ se.RolloutErr.Error
        else "") ++
      (if se.CheckHealthErr ≠ GoError.nil then
        "failed health check: " ++ se.CheckHealthErr.Error else "") ++
      (if se.RollbackErr ≠ GoError.nil then
        ": failed rollback: " ++ se.RollbackErr.Error else "") ∧
    (se.RolloutErr ≠ GoError.nil → se.CheckHealthErr ≠ GoError.nil →
      se.RollbackErr = GoError.nil → se.RollbackSuccessful = false →
      se.Error = "failed rollout: " ++ se.RolloutErr.Error ++
        "failed health check: " ++ se.CheckHealthErr.Error) := by
  constructor
  · rw [ServiceErr_Error_eq]
    simp only [String.append_assoc]
  · intro hr hc hk hb
    rw [ServiceErr_Error_eq]
    simp [hr, hc, hk, hb, String.append_assoc]

/-- C18: a composite returned by `ServiceRollout` renders to the shape fixed by
the run: "rollback successful: failed rollout: " + r when `Rollout` failed and
`Rollback` succeeded, "failed rollout: " + r + ": failed rollback: " + b when
both failed, "rollback successful: failed health check: " + h when
`CheckHealth` failed and `Rollback` succeeded, and
"failed health check: " + h + ": failed rollback: " + b when both failed; here
r, h, b are the texts of the errors the calls returned. The text is never
empty, and the four shapes are different texts whatever r, h, b are. -/
theorem ServiceRollout_Error_shape {σ : Type} (s : Service σ) (st : σ)
    (hcomp : (ServiceRollout s st).1 ≠ GoError.nil) :
    (ServiceRollout s st).1.Error ≠ "" ∧
    (((s.Rollout st).1 ≠ GoError.nil ∧
        (s.Rollback (rollbackState s st)).1 = GoError.nil ∧
        (ServiceRollout s st).1.Error =
          "rollback successful: failed rollout: " ++ (s.Rollout st).1.Error) ∨
      ((s.Rollout st).1 ≠ GoError.nil ∧
        (s.Rollback (rollbackState s st)).1 ≠ GoError.nil ∧
        (ServiceRollout s st).1.Error =
          "failed rollout: " ++ (s.Rollout st).1.Error ++ ": failed rollback: " ++
            (s.Rollback (rollbackState s st)).1.Error) ∨
      ((s.Rollout st).1 = GoError.nil ∧
        (s.CheckHealth (s.Rollout st).2).1 ≠ GoError.nil ∧
        (s.Rollback (rollbackState s st)).1 = GoError.nil ∧
        (ServiceRollout s st).1.Error =
          "rollback successful: failed health check: " ++
            (s.CheckHealth (s.Rollout st).2).1.Error) ∨
      ((s.Rollout st).1 = GoError.nil ∧
        (s.CheckHealth (s.Rollout st).2).1 ≠ GoError.nil ∧
        (s.Rollback (rollbackState s st)).1 ≠ GoError.nil ∧
        (ServiceRollout s st).1.Error =
          "failed health check: " ++ (s.CheckHealth (s.Rollout st).2).1.Error ++
            ": failed rollback: " ++ (s.Rollback (rollbackState s st)).1.Error)) ∧
    (∀ r h b r2 h2 b2 : String,
      "rollback successful: failed rollout: " ++ r ≠
        "failed rollout: " ++ r2 ++ ": failed rollback: " ++ b2 ∧
      "rollback successful: failed rollout: " ++ r ≠
        "rollback successful: failed health check: " ++ h2 ∧
      "rollback successful: failed rollout: " ++ r ≠
        "failed health check: " ++ h2 ++ ": failed rollback: " ++ b2 ∧
      "failed rollout: " ++ r ++ ": failed rollback: " ++ b ≠
        "rollback successful: failed health check: " ++ h2 ∧
      "failed rollout: " ++ r ++ ": failed rollback: " ++ b ≠
        "failed health check: " ++ h2 ++ ": failed rollback: " ++ b2 ∧
      "rollback successful: failed health check: " ++ h ≠
        "failed health check: " ++ h2 ++ ": failed rollback: " ++ b2) := by
  have hshape :
      ((s.Rollout st).1 ≠ GoError.nil ∧
        (s.Rollback (rollbackState s st)).1 = GoError.nil ∧
        (ServiceRollout s st).1.Error =
          "rollback successful: failed rollout: " ++ (s.Rollout st).1.Error) ∨
      ((s.Rollout st).1 ≠ GoError.nil ∧
        (s.Rollback (rollbackState s st)).1 ≠ GoError.nil ∧
        (ServiceRollout s st).1.Error =
          "failed rollout: " ++ (s.Rollout st).1.Error ++ ": failed rollback: " ++
            (s.Rollback (rollbackState s st)).1.Error) ∨
      ((s.Rollout st).1 = GoError.nil ∧
        (s.CheckHealth (s.Rollout st).2).1 ≠ GoError.nil ∧
        (s.Rollback (rollbackState s st)).1 = GoError.nil ∧
        (ServiceRollout s st).1.Error =
          "rollback successful: failed health check: " ++
            (s.CheckHealth (s.Rollout st).2).1.Error) ∨
      ((s.Rollout st).1 = GoError.nil ∧
        (s.CheckHealth (s.Rollout st).2).1 ≠ GoError.nil ∧
        (s.Rollback (rollbackState s st)).1 ≠ GoError.nil ∧
        (ServiceRollout s st).1.Error =
          "failed health check: " ++ (s.CheckHealth (s.Rollout st).2).1.Error ++
            ": failed rollback: " ++ (s.Rollback (rollbackState s st)).1.Error) := by
    by_cases hr : (s.Rollout st).1 = GoError.nil
    · have hst : rollbackState s st = (s.CheckHealth (s.Rollout st).2).2 := by
        simp [rollbackState, hr]
      have hc : (s.CheckHealth (s.Rollout st).2).1 ≠ GoError.nil := by
        intro hc
        apply hcomp
        simp [ServiceRollout, hr, hc]
      rw [hst]
      by_cases hb : (s.Rollback (s.CheckHealth (s.Rollout st).2).2).1 = GoError.nil
      · refine Or.inr (Or.inr (Or.inl ⟨hr, hc, hb, ?_⟩))
        have hres : (ServiceRollout s st).1 = ServiceErr.toError
            (ServiceErr.mk true GoError.nil (s.CheckHealth (s.Rollout st).2).1
              GoError.nil) := by
          simp [ServiceRollout, hr, hc, hb]
        rw [hres, Error_toError, ServiceErr_Error_eq]
        simp [hc, String.append_assoc]
        rw [← String.append_assoc]
        rfl
      · refine Or.inr (Or.inr (Or.inr ⟨hr, hc, hb, ?_⟩))
        have hres : (ServiceRollout s st).1 = ServiceErr.toError
            (ServiceErr.mk false GoError.nil (s.CheckHealth (s.Rollout st).2).1
              (s.Rollback (s.CheckHealth (s.Rollout st).2).2).1) := by
          simp [ServiceRollout, hr, hc, hb]
        rw [hres, Error_toError, ServiceErr_Error_eq]
        simp [hc, hb, String.append_assoc]
    · have hst : rollbackState s st = (s.Rollout st).2 := by
        simp [rollbackState, hr]
      rw [hst]
      by_cases hb : (s.Rollback (s.Rollout st).2).1 = GoError.nil
      · refine Or.inl ⟨hr, hb, ?_⟩
        have hres : (ServiceRollout s st).1 = ServiceErr.toError
            (ServiceErr.mk true (s.Rollout st).1 GoError.nil GoError.nil) := by
          simp [ServiceRollout, hr, hb]
        rw [hres, Error_toError, ServiceErr_Error_eq]
        simp [hr, String.append_assoc]
        rw [← String.append_assoc]
        rfl
      · refine Or.inr (Or.inl ⟨hr, hb, ?_⟩)
        have hres : (ServiceRollout s st).1 = ServiceErr.toError
            (ServiceErr.mk false (s.Rollout st).1 GoError.nil
              (s.Rollback (s.Rollout st).2).1) := by
          simp [ServiceRollout, hr, hb]
        rw [hres, Error_toError, ServiceErr_Error_eq]
        simp [hr, hb, String.append_assoc]
  refine ⟨?_, hshape, ?_⟩
  · rcases hshape with ⟨_, _, h⟩ | ⟨_, _, h⟩ | ⟨_, _, _, h⟩ | ⟨_, _, _, h⟩
    · rw [h]; exact String_append_ne_empty _ _ (by decide)
    · rw [h, String.append_assoc, String.append_assoc]
      exact String_append_ne_empty _ _ (by decide)
    · rw [h]; exact String_append_ne_empty _ _ (by decide)
    · rw [h, String.append_assoc, String.append_assoc]
      exact String_append_ne_empty _ _ (by decide)
  · intro r h b r2 h2 b2
    refine ⟨?_, ?_, ?_, ?_, ?_, ?_⟩ <;>
      · intro hh
        have hd := congrArg String.data hh
        simp [String.data_append] at hd

theorem ServiceRollout_Error_shape_witness :
    (ServiceRollout (TestService.toService (TestService.mk true false false)) ()).1.Error
      ≠ "" ∧
    (ServiceRollout (TestService.toService (TestService.mk true false false)) ()).1.Error
      = "rollback successful: failed rollout: rollout failed" := by
  have h := ServiceRollout_Error_shape
    (TestService.toService (TestService.mk true false false)) () (by decide)
  refine ⟨h.1, ?_⟩
  rcases h.2.1 with ⟨_, _, h1⟩ | ⟨_, hb, _⟩ | ⟨hr, _⟩ | ⟨hr, _⟩
  · rw [h1]
    simp [TestService.toService, TestService.Rollout, ErrRollout, GoError.Error]
  · exact absurd rfl hb
  · exact absurd hr (by decide)
  · exact absurd hr (by decide)

/-! ## Direction of the match and the nil target -/

/-- C20: called directly with a nil target, `ServiceErr.Is` returns true
exactly for the composites with at least one of the three fields nil, among
them the empty composite and every composite `ServiceRollout` returns, while
`errors.Is` of any composite against nil is false: that answer comes from the
nil test at the start of `errors.Is`, which returns before the method is
called. -/
theorem ServiceErr_Is_nil_target (m : ErrorMethods) (se : ServiceErr) :
    (se.Is m GoError.nil = some true ↔
      (se.RolloutErr = GoError.nil ∨ se.CheckHealthErr = GoError.nil ∨
        se.RollbackErr = GoError.nil)) ∧
    errors.Is m se.toError GoError.nil = some false ∧
    ServiceErr.Is m (ServiceErr.mk false GoError.nil GoError.nil GoError.nil) GoError.nil
      = some true ∧
    (∀ {σ : Type} (s : Service σ) (st : σ),
      (ServiceRollout s st).1 = se.toError → se.Is m GoError.nil = some true) := by
  have hval : se.Is m GoError.nil =
      some (decide (GoError.nil = se.RolloutErr) || decide (GoError.nil = se.CheckHealthErr)
        || decide (GoError.nil = se.RollbackErr)) := by
    rw [ServiceErr.Is]
    simp only [errors_Is_nil_left]
    generalize decide (GoError.nil = se.RolloutErr) = b1
    generalize decide (GoError.nil = se.CheckHealthErr) = b2
    generalize decide (GoError.nil = se.RollbackErr) = b3
    cases b1 <;> cases b2 <;> cases b3 <;> rfl
  have hiff : se.Is m GoError.nil = some true ↔
      (se.RolloutErr = GoError.nil ∨ se.CheckHealthErr = GoError.nil ∨
        se.RollbackErr = GoError.nil) := by
    rw [hval]
    simp only [Option.some.injEq, Bool.or_eq_true, decide_eq_true_eq, or_assoc]
    constructor
    · rintro (h | h | h)
      · exact Or.inl h.symm
      · exact Or.inr (Or.inl h.symm)
      · exact Or.inr (Or.inr h.symm)
    · rintro (h | h | h)
      · exact Or.inl h.symm
      · exact Or.inr (Or.inl h.symm)
      · exact Or.inr (Or.inr h.symm)
  refine ⟨hiff, ?_, ?_, ?_⟩
  · rw [errors_Is_nil_right]
    simp [toError_ne_nil]
  · rw [ServiceErr.Is]
    simp [errors_Is_nil_left, returnTrueOr]
  · intro σ s st h
    obtain ⟨_, hro, hch, _⟩ := ServiceRollout_cases s st se h
    apply hiff.mpr
    by_cases hr : (s.Rollout st).1 = GoError.nil
    · exact Or.inl (hro.trans hr)
    · exact Or.inr (Or.inl (by rw [hch]; simp [hr]))
